import Mathlib

/-!
Verification development for the MLB prediction pipeline
(schedule scraper, team-name resolver, LLM prediction orchestrator of
`ai-sports-almanac2`).

The JavaScript source is shallowly embedded:
* pure string manipulation is translated to Lean functions on `String`;
* JS numbers are modelled by `ℚ` where the properties at issue are exact
  (0, NaN and falsiness checks, which binary floats represent exactly);
  `Option ℚ` is used where `NaN` can arise (`none` = NaN);
* fallible operations (HTTP requests) appear as `Except JsError _` inputs
  supplied through an environment record, so that every network/throw
  scenario is a concrete input;
* `Math.random()` draws are passed in as explicit parameters;
* DOM/regex *scanning* done by the cheerio / JS-regexp libraries is
  modelled by structured inputs (tables as row/cell texts, matched
  substrings), while all processing of those texts performed by the
  repository's own code (the specific regular expressions it applies to
  cell texts, record splitting, time formatting) is implemented directly.
-/

namespace SportsAlmanac

/-! ## Generic JavaScript-semantics helpers -/

/-- `String.prototype.trim` (ASCII whitespace; the inputs of interest are ASCII). -/
def jsTrim (s : String) : String := s.trim

/-- Value of a digit list read in base 10. -/
def digitsToNat (ds : List Char) : ℕ :=
  ds.foldl (fun a c => a * 10 + (c.toNat - 48)) 0

/-- `parseInt(s)` for the non-negative inputs that occur here (record halves,
    regex digit captures): skip leading whitespace, read leading digits,
    `none` = NaN when there is no leading digit.  Sign handling is omitted
    because every call site feeds digit strings. -/
def jsParseIntNat (s : String) : Option ℕ :=
  let cs := s.data.dropWhile (fun c => c.isWhitespace)
  let ds := cs.takeWhile (fun c => c.isDigit)
  if ds.isEmpty then none else some (digitsToNat ds)

/-- `x || d` for a JS number `x` that is either NaN (`none`) or an exact
    rational: falsy means NaN or `0`. -/
def jsOrQ (x : Option ℚ) (d : ℚ) : ℚ :=
  match x with
  | none => d
  | some v => if v = 0 then d else v

/-- JS division `a / b` on the naturals appearing here.  `none` models NaN;
    at every call site `b = 0` forces `a = 0` (wins ≤ wins+losses), so the
    Infinity case is unreachable. -/
def jsDivNat (a b : ℕ) : Option ℚ :=
  if b = 0 then none else some ((a : ℚ) / (b : ℚ))

/-- `Math.round` (half goes up). -/
def jsRound (q : ℚ) : ℤ := Int.floor (q + 1/2)

/-- `String.prototype.padStart(n, '0')`. -/
def padZeros (n : ℕ) (s : String) : String :=
  if n ≤ s.length then s else String.mk (List.replicate (n - s.length) '0') ++ s

/-- `String.prototype.toLowerCase` (ASCII). -/
def toLowerStr (s : String) : String := String.mk (s.data.map Char.toLower)

/-- `name.substring(0, 3).toUpperCase()` (ASCII). -/
def upper3 (s : String) : String := String.mk ((s.data.take 3).map Char.toUpper)

/-- Does `hay` start with `needle`? -/
def beginsWith : List Char → List Char → Bool
  | [], _ => true
  | _ :: _, [] => false
  | a :: as, b :: bs => a == b && beginsWith as bs

/-- Contiguous-substring test on char lists. -/
def containsChars (needle : List Char) : List Char → Bool
  | [] => needle.isEmpty
  | h :: t => beginsWith needle (h :: t) || containsChars needle t

/-- `s.includes(key)`. -/
def jsIncludes (s key : String) : Bool := containsChars key.data s.data

/-! ## Team Name Resolver (`parseTeamName`, fetch-and-predict.js:33–120) -/

/-- Resolver output: `{ fullName, abbreviation }`. -/
structure TeamRef where
  fullName : String
  abbreviation : String
  deriving DecidableEq, Repr

/-- The `teamAbbreviations` object literal of fetch-and-predict.js, in
    declaration order (JS string-keyed objects preserve insertion order,
    which the partial-match loop relies on). -/
def teamAbbreviations : List (String × String) :=
  [("Arizona", "ARI"),
   ("Arizona Diamondbacks", "ARI"),
   ("Arizona D'Backs", "ARI"),
   ("Arizona D-backs", "ARI"),
   ("Atlanta", "ATL"),
   ("Atlanta Braves", "ATL"),
   ("Baltimore", "BAL"),
   ("Baltimore Orioles", "BAL"),
   ("Boston", "BOS"),
   ("Boston Red Sox", "BOS"),
   ("Chicago Cubs", "CHC"),
   ("Chicago White Sox", "CWS"),
   ("Chi White Sox", "CWS"),
   ("Cincinnati", "CIN"),
   ("Cincinnati Reds", "CIN"),
   ("Cleveland", "CLE"),
   ("Cleveland Guardians", "CLE"),
   ("Colorado", "COL"),
   ("Colorado Rockies", "COL"),
   ("Detroit", "DET"),
   ("Detroit Tigers", "DET"),
   ("Houston", "HOU"),
   ("Houston Astros", "HOU"),
   ("Kansas City", "KC"),
   ("Kansas City Royals", "KC"),
   ("Los Angeles Angels", "LAA"),
   ("LA Angels", "LAA"),
   ("Los Angeles Dodgers", "LAD"),
   ("LA Dodgers", "LAD"),
   ("Miami", "MIA"),
   ("Miami Marlins", "MIA"),
   ("Milwaukee", "MIL"),
   ("Milwaukee Brewers", "MIL"),
   ("Minnesota", "MIN"),
   ("Minnesota Twins", "MIN"),
   ("New York Mets", "NYM"),
   ("New York Yankees", "NYY"),
   ("Oakland", "OAK"),
   ("Oakland Athletics", "OAK"),
   ("Philadelphia", "PHI"),
   ("Philadelphia Phillies", "PHI"),
   ("Pittsburgh", "PIT"),
   ("Pittsburgh Pirates", "PIT"),
   ("San Diego", "SD"),
   ("San Diego Padres", "SD"),
   ("San Francisco", "SF"),
   ("San Francisco Giants", "SF"),
   ("Seattle", "SEA"),
   ("Seattle Mariners", "SEA"),
   ("St. Louis", "STL"),
   ("St. Louis Cardinals", "STL"),
   ("Tampa Bay", "TB"),
   ("Tampa Bay Rays", "TB"),
   ("Texas", "TEX"),
   ("Texas Rangers", "TEX"),
   ("Toronto", "TOR"),
   ("Toronto Blue Jays", "TOR"),
   ("Washington", "WSH"),
   ("Washington Nationals", "WSH")]

/-- `parseTeamName` of fetch-and-predict.js: exact dictionary hit first
    (returning the *raw* name as `fullName`), then first key contained in
    the name (returning the *key* as `fullName`), else the raw name with
    its first three characters uppercased as abbreviation. -/
def parseTeamName (name : String) : TeamRef :=
  match teamAbbreviations.find? (fun kv => kv.1 == name) with
  | some kv => ⟨name, kv.2⟩
  | none =>
    match teamAbbreviations.find? (fun kv => jsIncludes name kv.1) with
    | some kv => ⟨kv.1, kv.2⟩
    | none => ⟨name, upper3 name⟩


/-! ## Calendar model for `parseEasternTimeToISO`
(fetch-and-predict.js:123–133)

The JS function determines the Eastern offset for a calendar date by asking
`toLocaleString` for the short time-zone name of the instant 12:00 UTC on
that date, and then converts the wall-clock time with that fixed offset.
We model the Gregorian calendar and, for years since 2007, the
America/New_York rule that `toLocaleString` consults: daylight saving
starts 02:00 EST on the second Sunday of March (= 07:00 UTC, so 12:00 UTC
of that day is already EDT) and ends 02:00 EDT on the first Sunday of
November (= 06:00 UTC, so 12:00 UTC of that day is already EST). -/

def isLeap (y : ℕ) : Bool := y % 4 == 0 && (y % 100 != 0 || y % 400 == 0)

/-- Days in the months before month `m` (1-based) of year `y`. -/
def daysBeforeMonth (y m : ℕ) : ℕ :=
  let base := [0, 31, 59, 90, 120, 151, 181, 212, 243, 273, 304, 334].getD (m - 1) 0
  if 3 ≤ m ∧ isLeap y then base + 1 else base

/-- Days elapsed from 0001-01-01 (proleptic Gregorian) to `y-m-d`. -/
def civilDays (y m d : ℕ) : ℕ :=
  365 * (y - 1) + (y - 1) / 4 - (y - 1) / 100 + (y - 1) / 400
    + daysBeforeMonth y m + (d - 1)

/-- Day of week, 0 = Sunday.  0001-01-01 proleptic Gregorian is a Monday. -/
def dayOfWeek (y m d : ℕ) : ℕ := (civilDays y m d + 1) % 7


/-- Day of month of the second Sunday of March. -/
def secondSundayOfMarch (y : ℕ) : ℕ := 1 + (7 - dayOfWeek y 3 1) % 7 + 7

/-- Day of month of the first Sunday of November. -/
def firstSundayOfNovember (y : ℕ) : ℕ := 1 + (7 - dayOfWeek y 11 1) % 7


/-- Is 12:00 UTC of the date `y-m-d` inside Eastern Daylight Time?
    (The value `toLocaleString`'s tz lookup yields for the code's `midDay`.) -/
def isEasternDaylightAtNoonUTC (y m d : ℕ) : Bool :=
  (3 < m ∨ (m = 3 ∧ secondSundayOfMarch y ≤ d))
    ∧ (m < 11 ∨ (m = 11 ∧ d < firstSundayOfNovember y))

/-- The short tz name the code extracts with `.split(' ').pop()`. -/
def tzShortName (y m d : ℕ) : String :=
  if isEasternDaylightAtNoonUTC y m d then "EDT" else "EST"

/-- Minutes from 0001-01-01T00:00 to the UTC instant `y-m-d h:min`. -/
def utcMinutes (y m d h min : ℕ) : ℕ := civilDays y m d * 1440 + h * 60 + min

/-- `parseEasternTimeToISO(month, day, year, hour, minute, ampm)`:
    offset is `-04:00` iff the tz name at 12:00 UTC of the date is `EDT`,
    and `new Date("M/D/YYYY H:MM AM/PM ±hh:00")` denotes the instant
    wall-clock + offset (12-hour clock: 12 AM → 00h, 12 PM → 12h).
    We represent the returned ISO string by the instant it denotes,
    in minutes from 0001-01-01T00:00 UTC. -/
def parseEasternTimeToISO (month day year hour minute : ℕ) (isPM : Bool) : ℕ :=
  let tzName := tzShortName year month day
  let offsetMinutes := if tzName == "EDT" then 240 else 300
  let hour24 := hour % 12 + (if isPM then 12 else 0)
  utcMinutes year month day hour24 minute + offsetMinutes

/-- Modelled from the spec: "the correct US Eastern offset for that specific
    calendar date — -04:00 when the date falls in Eastern Daylight Time and
    -05:00 when it falls in Eastern Standard Time".  A date falls in EDT
    when it lies on or after the second Sunday of March and strictly
    before the first Sunday of November of its year (post-2007 US rule;
    the transition days themselves belong to the regime in force from
    02:00 that morning onward, which covers every scheduled game time). -/
def easternOffsetMinutesSpec (y m d : ℕ) : ℕ :=
  if (3 < m ∨ (m = 3 ∧ secondSundayOfMarch y ≤ d))
      ∧ (m < 11 ∨ (m = 11 ∧ d < firstSundayOfNovember y)) then 240 else 300

/-- Modelled from the spec: the UTC instant of an Eastern wall-clock time,
    obtained by adding the date's correct Eastern offset. -/
def easternWallClockToUtcSpec (y m d hour minute : ℕ) (isPM : Bool) : ℕ :=
  utcMinutes y m d (hour % 12 + (if isPM then 12 else 0)) minute
    + easternOffsetMinutesSpec y m d

/-! ## Retry wrapper `requestWithRetry` (server.js:105–121) -/

/-- The observable fields of the JS error: `error.response?.status`
    (`none` when there is no HTTP response). -/
structure JsError where
  status : Option ℕ
  deriving DecidableEq, Repr

/-- `status === 429 || (status >= 500 && status < 600)`; both comparisons
    are false for `undefined`. -/
def isTransientStatus : Option ℕ → Bool
  | some s => s == 429 || (500 ≤ s && s < 600)
  | none => false

/-- How a `requestWithRetry` invocation can end: return a value, rethrow an
    error, or fall off the loop returning `undefined`. -/
inductive RwrOutcome (α : Type) where
  | success (v : α)
  | thrown (e : JsError)
  | undef
  deriving DecidableEq, Repr

/-- Loop body of `requestWithRetry`.  `f i` is the outcome of the `i`-th
    invocation of the wrapped operation; the second component collects the
    `setTimeout` delays actually slept, in order.  `retries` is an integer
    as in JS, so zero/negative counts skip the loop. -/
def requestWithRetryGo {α : Type} (f : ℕ → Except JsError α) (retries : ℤ)
    (delay : ℕ) (attempt : ℕ) : RwrOutcome α × List ℕ :=
  if _h : (attempt : ℤ) < retries then
    match f attempt with
    | .ok v => (.success v, [])
    | .error e =>
      if (attempt : ℤ) < retries - 1 ∧ isTransientStatus e.status then
        let r := requestWithRetryGo f retries (delay * 2) (attempt + 1)
        (r.1, delay :: r.2)
      else (.thrown e, [])
  else (.undef, [])
termination_by (retries - attempt).toNat
decreasing_by omega

/-- `requestWithRetry(fn, retries = 3, delay = 1000)`. -/
def requestWithRetry {α : Type} (f : ℕ → Except JsError α) (retries : ℤ)
    (delay : ℕ) : RwrOutcome α × List ℕ :=
  requestWithRetryGo f retries delay 0

/-! ## LLM prediction service (server.js:89–474) -/

/-- The team fields read by the prediction service. -/
structure TeamP where
  name : String
  record : String
  deriving DecidableEq, Repr

/-- The game fields read by the prediction service (`venue` may be absent,
    the code guards with `game.venue || ...`). -/
structure GameP where
  homeTeam : TeamP
  awayTeam : TeamP
  gameTime : String
  venue : Option String
  deriving DecidableEq, Repr

/-- `parseRecord`: split on `'-'`, `parseInt(part) || 0` on the first two
    parts (a missing part parses to NaN, hence 0). -/
def parseRecord (record : String) : ℕ × ℕ :=
  let parts := record.split (fun c => c = '-')
  ((jsParseIntNat (parts.getD 0 "")).getD 0,
   (jsParseIntNat (parts.getD 1 "")).getD 0)

/-- The win-percentage subexpression of `getFallbackPrediction`:
    `wins / (wins + losses) || 0.5`. -/
def fallbackWinPct (wins losses : ℕ) : ℚ :=
  jsOrQ (jsDivNat wins (wins + losses)) (1/2)

/-- `getFallbackPrediction(provider, game)` (server.js:318–378).
    `r1`, `r2` supply the two `Math.random` draws: the code's
    `Math.floor(Math.random() * k)` is modelled as `r % k`. -/
def getFallbackPrediction (provider : String) (game : GameP) (r1 r2 : ℕ) : String :=
  let homeTeam := game.homeTeam
  let awayTeam := game.awayTeam
  let homeRecord := parseRecord homeTeam.record
  let awayRecord := parseRecord awayTeam.record
  let venue := (game.venue).getD (homeTeam.name ++ " Stadium")
  let homeWinPct := fallbackWinPct homeRecord.1 homeRecord.2
  let awayWinPct := fallbackWinPct awayRecord.1 awayRecord.2
  let homeAdvantage : ℚ := 5/100
  let adjustedHomeWinPct := homeWinPct + homeAdvantage
  let homeScore : ℕ := if adjustedHomeWinPct > awayWinPct then r1 % 4 + 3 else r1 % 3 + 1
  let awayScore : ℕ := if adjustedHomeWinPct > awayWinPct then r2 % 3 + 1 else r2 % 4 + 3
  let scoreLine := awayTeam.name ++ " - " ++ homeTeam.name ++ ": "
    ++ toString awayScore ++ "-" ++ toString homeScore
  let justification :=
    if provider = "openai" then
      if adjustedHomeWinPct > awayWinPct then
        "The " ++ homeTeam.name ++ " have a stronger record and home field advantage gives them the edge in this matchup. Their pitching staff has been more consistent recently which should limit the " ++ awayTeam.name ++ "'s scoring opportunities."
      else
        "Despite playing away, the " ++ awayTeam.name ++ " have shown better form with their " ++ toString awayRecord.1 ++ "-" ++ toString awayRecord.2 ++ " record compared to the " ++ homeTeam.name ++ "'s " ++ toString homeRecord.1 ++ "-" ++ toString homeRecord.2 ++ ". The " ++ awayTeam.name ++ "'s batting lineup has been more productive in recent games."
    else if provider = "anthropic" then
      if adjustedHomeWinPct > awayWinPct then
        "After analyzing both teams' strengths and weaknesses, the " ++ homeTeam.name ++ " appear to have the advantage playing at home. Their recent performance and pitching rotation matchup favorably against the " ++ awayTeam.name ++ " in this game."
      else
        "The " ++ awayTeam.name ++ " have been performing exceptionally well on the road this season, which gives them an edge despite playing away. Their bullpen has been more reliable than the " ++ homeTeam.name ++ "'s relief pitchers in close game situations."
    else if provider = "grok" then
      if adjustedHomeWinPct > awayWinPct then
        "Looking at the batting averages and bullpen ERA, the " ++ homeTeam.name ++ " have clear advantages in key statistical categories. Their home record this season suggests they'll continue their strong performance at " ++ venue ++ "."
      else
        "The " ++ awayTeam.name ++ " have been road warriors this season with impressive away statistics. Their offensive production has been significantly better than the " ++ homeTeam.name ++ "'s in the last 10 games."
    else if provider = "deepseek" then
      if adjustedHomeWinPct > awayWinPct then
        "Statistical analysis indicates the " ++ homeTeam.name ++ " have a " ++ toString (jsRound (adjustedHomeWinPct / (adjustedHomeWinPct + awayWinPct) * 100)) ++ "% win probability in this matchup. Key factors include their home/away splits and superior performance in one-run games this season."
      else
        "Based on advanced metrics, the " ++ awayTeam.name ++ " have a " ++ toString (jsRound (awayWinPct / (adjustedHomeWinPct + awayWinPct) * 100)) ++ "% chance to win despite playing away from home. Their road OPS and pitching matchup advantages are significant factors in this prediction."
    else
      if adjustedHomeWinPct > awayWinPct then
        "The " ++ homeTeam.name ++ " are favored to win at home against the " ++ awayTeam.name ++ ". Their overall record and home field advantage are key factors in this prediction."
      else
        "The " ++ awayTeam.name ++ " are expected to win on the road against the " ++ homeTeam.name ++ ". Their superior record and recent performance trends support this prediction."
  scoreLine ++ "\n\n" ++ justification

/-- External behaviour of one provider as seen by the service: whether a
    credential is configured, the outcome of each HTTP attempt (the `.ok`
    payload is the text already extracted from the provider's response
    envelope), and the two `Math.random` draws a fallback would use. -/
structure ProviderEnv where
  hasKey : Bool
  call : ℕ → Except JsError String
  rand1 : ℕ
  rand2 : ℕ

/-- Common shape of `getOpenAIPrediction` / `getAnthropicPrediction` /
    `getGrokPrediction` / `getDeepSeekPrediction` (server.js:153–310; the
    four differ only in endpoint/headers, which live behind `env.call`):
    no key → fallback without any network call; otherwise the
    `requestWithRetry`-wrapped call, whose result is `.trim()`ed on
    success and replaced by the fallback when an error is thrown.  (The
    `undef` outcome of the wrapper cannot occur for 3 retries; in JS it
    would fault on `response.data` and the `catch` would likewise produce
    the fallback.) -/
def getProviderPrediction (provider : String) (env : ProviderEnv)
    (game : GameP) : String :=
  if !env.hasKey then getFallbackPrediction provider game env.rand1 env.rand2
  else
    match (requestWithRetry env.call 3 1000).1 with
    | .success s => jsTrim s
    | .thrown _ => getFallbackPrediction provider game env.rand1 env.rand2
    | .undef => getFallbackPrediction provider game env.rand1 env.rand2

/-- Wall-clock components of `new Date()` at the moment of the call. -/
structure UtcTime where
  year : ℕ
  month : ℕ
  day : ℕ
  hour : ℕ
  minute : ℕ
  second : ℕ
  ms : ℕ
  deriving DecidableEq, Repr

/-- `Date.prototype.toISOString`: `YYYY-MM-DDTHH:MM:SS.mmmZ`. -/
def jsToISOString (t : UtcTime) : String :=
  padZeros 4 (toString t.year) ++ "-" ++ padZeros 2 (toString t.month) ++ "-"
    ++ padZeros 2 (toString t.day) ++ "T" ++ padZeros 2 (toString t.hour) ++ ":"
    ++ padZeros 2 (toString t.minute) ++ ":" ++ padZeros 2 (toString t.second)
    ++ "." ++ padZeros 3 (toString t.ms) ++ "Z"

/-- Environment of one `getAllPredictions` call. -/
structure PredEnv where
  openai : ProviderEnv
  anthropic : ProviderEnv
  grok : ProviderEnv
  deepseek : ProviderEnv
  now : UtcTime

/-- The object returned by `getAllPredictions`: four provider fields, the
    `timestamp` field, and the `error` field that only the catch branch
    would add. -/
structure Predictions where
  openai : String
  anthropic : String
  grok : String
  deepseek : String
  timestamp : String
  error : Option String
  deriving DecidableEq, Repr

/-- `Object.keys` of the returned object, in construction order. -/
def predictionObjectKeys (p : Predictions) : List String :=
  ["openai", "anthropic", "grok", "deepseek", "timestamp"]
    ++ (match p.error with | some _ => ["error"] | none => [])

/-- `getAllPredictions(game)` (server.js:432–473).  Each of the four
    provider helpers is total — every failure path resolves to the
    fallback string — so the four `Promise.all` members always fulfil, the
    per-provider `.catch` handlers and the outer `catch` (which would add
    the `error` key) are unreachable, and the returned object is the
    success-branch literal with `error` absent. -/
def getAllPredictions (env : PredEnv) (game : GameP) : Predictions :=
  { openai := getProviderPrediction "openai" env.openai game
    anthropic := getProviderPrediction "anthropic" env.anthropic game
    grok := getProviderPrediction "grok" env.grok game
    deepseek := getProviderPrediction "deepseek" env.deepseek game
    timestamp := jsToISOString env.now
    error := none }

/-! ## Schedule scraper, multi-strategy version
(`scrapeMLBData`, unnamed/part_001:140–673)

The cheerio DOM queries and the global regexp scan of the body text are
library behaviour; they are modelled by a structured document input
(tables as lists of data rows of cell texts — the header row already
removed by `.slice(1)` —, candidate cards as the texts of their selected
sub-elements, and the substrings matched by the `vs|at` scan).  Every
piece of text processing the scraper itself performs on those strings
(its regular expressions, splitting, trimming, formatting) is implemented
below. -/

/-- Take exactly `n` leading digits. -/
def takeDigitsN : ℕ → List Char → Option (List Char × List Char)
  | 0, cs => some ([], cs)
  | _ + 1, [] => none
  | n + 1, c :: cs =>
    if c.isDigit then (takeDigitsN n cs).map (fun p => (c :: p.1, p.2)) else none

/-- Expect a literal character. -/
def expectChar (c : Char) : List Char → Option (List Char)
  | b :: bs => if b == c then some bs else none
  | [] => none

/-- `\s*`. -/
def dropSpaces (cs : List Char) : List Char := cs.dropWhile (fun c => c.isWhitespace)

/-- `\s+`. -/
def expectSpaces1 : List Char → Option (List Char)
  | c :: rest => if c.isWhitespace then some (dropSpaces rest) else none
  | [] => none

/-- `[AP]M` with the `i` flag; the raw matched text is kept because the
    code interpolates the capture into its output. -/
def expectAmPm : List Char → Option (String × List Char)
  | a :: m :: rest =>
    if (a == 'A' || a == 'a' || a == 'P' || a == 'p') && (m == 'M' || m == 'm') then
      some (String.mk [a, m], rest)
    else none
  | _ => none

/-- Captures of the two date/time regexes. -/
structure TimeParts where
  month : String
  day : String
  year : String
  hour : String
  minute : String
  ampm : String
  deriving DecidableEq, Repr

/-- `(\d{2})\/(\d{2})\/(\d{4})(\d{2}):(\d{2})\s*([AP]M)` anchored at the head. -/
def matchDateFmt1At (cs : List Char) : Option TimeParts := do
  let (mo, r1) ← takeDigitsN 2 cs
  let r2 ← expectChar '/' r1
  let (dy, r3) ← takeDigitsN 2 r2
  let r4 ← expectChar '/' r3
  let (yr, r5) ← takeDigitsN 4 r4
  let (hr, r6) ← takeDigitsN 2 r5
  let r7 ← expectChar ':' r6
  let (mi, r8) ← takeDigitsN 2 r7
  let (ap, _) ← expectAmPm (dropSpaces r8)
  pure ⟨String.mk mo, String.mk dy, String.mk yr, String.mk hr, String.mk mi, ap⟩

/-- `(\d{2})\/(\d{2})\/(\d{4})\s+(\d{1,2}):(\d{2})\s*([AP]M)` anchored at
    the head (`\d{1,2}` greedily tries two digits, then one). -/
def matchDateFmt2At (cs : List Char) : Option TimeParts := do
  let (mo, r1) ← takeDigitsN 2 cs
  let r2 ← expectChar '/' r1
  let (dy, r3) ← takeDigitsN 2 r2
  let r4 ← expectChar '/' r3
  let (yr, r5) ← takeDigitsN 4 r4
  let r6 ← expectSpaces1 r5
  let (hr, r7) ←
    (do
      let (h2, ra) ← takeDigitsN 2 r6
      let rb ← expectChar ':' ra
      pure (h2, rb))
    <|>
    (do
      let (h1, ra) ← takeDigitsN 1 r6
      let rb ← expectChar ':' ra
      pure (h1, rb))
  let (mi, r8) ← takeDigitsN 2 r7
  let (ap, _) ← expectAmPm (dropSpaces r8)
  pure ⟨String.mk mo, String.mk dy, String.mk yr, String.mk hr, String.mk mi, ap⟩

/-- Unanchored search: JS `String.prototype.match` tries every start
    position, leftmost first. -/
def firstMatchPos {α : Type} (f : List Char → Option α) : List Char → Option α
  | [] => none
  | c :: cs =>
    match f (c :: cs) with
    | some r => some r
    | none => firstMatchPos f cs

/-- The `gameTime` computation for a table row (part_001:202–234). -/
def rowGameTime (timeText currentDate : String) : String :=
  match firstMatchPos matchDateFmt1At timeText.data with
  | some p =>
    p.year ++ "-" ++ p.month ++ "-" ++ p.day ++ "T" ++ p.hour ++ ":"
      ++ p.minute ++ ":00 " ++ p.ampm
  | none =>
    match firstMatchPos matchDateFmt2At timeText.data with
    | some p =>
      p.year ++ "-" ++ p.month ++ "-" ++ p.day ++ "T" ++ padZeros 2 p.hour ++ ":"
        ++ p.minute ++ ":00 " ++ p.ampm
    | none => currentDate ++ "T12:00:00"

/-- `\(\d+-\d+\)` anchored at the head: returns the inner `\d+-\d+`
    capture and the remainder after the closing parenthesis. -/
def recParenAt (cs : List Char) : Option (String × List Char) := do
  let r1 ← expectChar '(' cs
  let d1 := r1.takeWhile (fun c => c.isDigit)
  if d1.isEmpty then none else
  let r2 ← expectChar '-' (r1.drop d1.length)
  let d2 := r2.takeWhile (fun c => c.isDigit)
  if d2.isEmpty then none else
  let r3 ← expectChar ')' (r2.drop d2.length)
  pure (String.mk d1 ++ "-" ++ String.mk d2, r3)

/-- Scan for the first `\(\d+-\d+\)` occurrence; returns the text before
    it, the record capture, and the remainder after it. -/
def splitAtRecParen (acc : List Char) : List Char → Option (List Char × String × List Char)
  | [] => none
  | c :: rest =>
    match recParenAt (c :: rest) with
    | some (rec, after) => some (acc.reverse, rec, after)
    | none => splitAtRecParen (acc ++ [c]) rest

/-- `(.+?)\s*\((\d+-\d+)\)\s*(.+?)\s*\((\d+-\d+)\)` as a search: the lazy
    groups pick the two earliest record parentheses, each preceded by at
    least one character; the captures are returned untrimmed (the caller
    applies `.trim()`, which also absorbs the `\s*` borders). -/
def teamsMatch1 (cs : List Char) : Option (String × String × String × String) :=
  match cs with
  | [] => none
  | c0 :: rest0 => do
    let (pre1, rec1, after1) ← splitAtRecParen [] rest0
    match after1 with
    | [] => none
    | c1 :: rest1 => do
      let (pre2, rec2, _) ← splitAtRecParen [] rest1
      pure (String.mk (c0 :: pre1), rec1, String.mk (c1 :: pre2), rec2)

/-- The `\s+vs\.?\s+` delimiter of `(.+?)\s+vs\.?\s+(.+)` with the `i`
    flag, anchored at the head; returns the remainder after it. -/
def vsDelimAt (cs : List Char) : Option (List Char) := do
  let r1 ← expectSpaces1 cs
  match r1 with
  | v :: s :: r2 =>
    if (v == 'v' || v == 'V') && (s == 's' || s == 'S') then
      match r2 with
      | '.' :: r3 => expectSpaces1 r3
      | _ => expectSpaces1 r2
    else none
  | _ => none

/-- Search loop of `(.+?)\s+vs\.?\s+(.+)`: the lazy first group places the
    delimiter at the earliest position (at least one character in) for
    which some non-empty remainder follows. -/
def teamsMatch2Go (pre : List Char) : List Char → Option (String × String)
  | [] => none
  | c :: rest =>
    match vsDelimAt (c :: rest) with
    | some rem =>
      if rem.isEmpty then teamsMatch2Go (pre ++ [c]) rest
      else some (String.mk pre, String.mk rem)
    | none => teamsMatch2Go (pre ++ [c]) rest

/-- `(.+?)\s+vs\.?\s+(.+)` with the `i` flag, as a search. -/
def teamsMatch2 : List Char → Option (String × String)
  | [] => none
  | c :: rest => teamsMatch2Go [c] rest

/-- `teamsText.split(/\(\d+-\d+\)/)`.  The fuel is the input length plus
    one; every step consumes at least one character, so it is never
    exhausted. -/
def splitRecParensGo : ℕ → List Char → List Char → List String
  | 0, acc, rest => [String.mk (acc.reverse ++ rest)]
  | fuel + 1, acc, cs =>
    match cs with
    | [] => [String.mk acc.reverse]
    | c :: rest =>
      match recParenAt (c :: rest) with
      | some (_, after) => String.mk acc.reverse :: splitRecParensGo fuel [] after
      | none => splitRecParensGo fuel (c :: acc) rest

def splitRecParens (cs : List Char) : List String :=
  splitRecParensGo (cs.length + 1) [] cs

/-- `\d+-\d+` anchored at the head (greedy digit runs). -/
def recDigitsAt (cs : List Char) : Option (String × List Char) :=
  let d1 := cs.takeWhile (fun c => c.isDigit)
  if d1.isEmpty then none else
  match cs.drop d1.length with
  | '-' :: r2 =>
    let d2 := r2.takeWhile (fun c => c.isDigit)
    if d2.isEmpty then none
    else some (String.mk d1 ++ "-" ++ String.mk d2, r2.drop d2.length)
  | _ => none

/-- Leftmost `\d+-\d+` match with its remainder. -/
def findRecDigits : List Char → Option (String × List Char)
  | [] => none
  | c :: rest =>
    match recDigitsAt (c :: rest) with
    | some r => some r
    | none => findRecDigits rest

/-- `teamsText.match(/(\d+-\d+)/)`: the first record. -/
def firstRecStr (s : String) : Option String := (findRecDigits s.data).map (fun p => p.1)

/-- `teamsText.match(/(\d+-\d+)(?!.*\d+-\d+)/)`: the match that no further
    match follows.  Fuel as in `splitRecParensGo`. -/
def lastRecChain : ℕ → List Char → Option String
  | 0, _ => none
  | fuel + 1, cs =>
    match findRecDigits cs with
    | none => none
    | some (m, rest) =>
      match lastRecChain fuel rest with
      | some m' => some m'
      | none => some m

def lastRecStr (s : String) : Option String := lastRecChain (s.data.length + 1) s.data

/-- The team-text parsing of a table row (part_001:239–285): format 1
    (`Team1 (W-L) Team2 (W-L)`), then format 2 (`Team1 vs Team2`), then
    format 3 (split on the record pattern); `none` = the row is skipped. -/
def rowTeams (teamsText : String) : Option (String × String × String × String) :=
  match teamsMatch1 teamsText.data with
  | some (a, ar, h, hr) => some (jsTrim a, ar, jsTrim h, hr)
  | none =>
    match teamsMatch2 teamsText.data with
    | some (a, h) => some (jsTrim a, "0-0", jsTrim h, "0-0")
    | none =>
      let teamParts := splitRecParens teamsText.data
      if 2 ≤ teamParts.length then
        some (jsTrim (teamParts.getD 0 ""), (firstRecStr teamsText).getD "0-0",
              jsTrim (teamParts.getD 1 ""), (lastRecStr teamsText).getD "0-0")
      else none

/-- The `teamAbbreviations` object literal local to part_001 (it lacks the
    `D'Backs`/`D-backs`/`Chi White Sox`/`LA Angels`/`LA Dodgers` aliases
    of the fetch-and-predict.js copy). -/
def teamAbbreviationsP1 : List (String × String) :=
  [("Arizona", "ARI"),
   ("Arizona Diamondbacks", "ARI"),
   ("Atlanta", "ATL"),
   ("Atlanta Braves", "ATL"),
   ("Baltimore", "BAL"),
   ("Baltimore Orioles", "BAL"),
   ("Boston", "BOS"),
   ("Boston Red Sox", "BOS"),
   ("Chicago Cubs", "CHC"),
   ("Chicago White Sox", "CWS"),
   ("Cincinnati", "CIN"),
   ("Cincinnati Reds", "CIN"),
   ("Cleveland", "CLE"),
   ("Cleveland Guardians", "CLE"),
   ("Colorado", "COL"),
   ("Colorado Rockies", "COL"),
   ("Detroit", "DET"),
   ("Detroit Tigers", "DET"),
   ("Houston", "HOU"),
   ("Houston Astros", "HOU"),
   ("Kansas City", "KC"),
   ("Kansas City Royals", "KC"),
   ("Los Angeles Angels", "LAA"),
   ("Los Angeles Dodgers", "LAD"),
   ("Miami", "MIA"),
   ("Miami Marlins", "MIA"),
   ("Milwaukee", "MIL"),
   ("Milwaukee Brewers", "MIL"),
   ("Minnesota", "MIN"),
   ("Minnesota Twins", "MIN"),
   ("New York Mets", "NYM"),
   ("New York Yankees", "NYY"),
   ("Oakland", "OAK"),
   ("Oakland Athletics", "OAK"),
   ("Philadelphia", "PHI"),
   ("Philadelphia Phillies", "PHI"),
   ("Pittsburgh", "PIT"),
   ("Pittsburgh Pirates", "PIT"),
   ("San Diego", "SD"),
   ("San Diego Padres", "SD"),
   ("San Francisco", "SF"),
   ("San Francisco Giants", "SF"),
   ("Seattle", "SEA"),
   ("Seattle Mariners", "SEA"),
   ("St. Louis", "STL"),
   ("St. Louis Cardinals", "STL"),
   ("Tampa Bay", "TB"),
   ("Tampa Bay Rays", "TB"),
   ("Texas", "TEX"),
   ("Texas Rangers", "TEX"),
   ("Toronto", "TOR"),
   ("Toronto Blue Jays", "TOR"),
   ("Washington", "WSH"),
   ("Washington Nationals", "WSH")]

/-- part_001's local `parseTeamName` (same algorithm as the
    fetch-and-predict.js copy, over its own dictionary). -/
def parseTeamNameP1 (name : String) : TeamRef :=
  match teamAbbreviationsP1.find? (fun kv => kv.1 == name) with
  | some kv => ⟨name, kv.2⟩
  | none =>
    match teamAbbreviationsP1.find? (fun kv => jsIncludes name kv.1) with
    | some kv => ⟨kv.1, kv.2⟩
    | none => ⟨name, upper3 name⟩

/-- The team objects the scraper builds. -/
structure TeamObj where
  name : String
  abbreviation : String
  logo : String
  record : String
  deriving DecidableEq, Repr

/-- A scraped game.  `note` models the property that only the dynamic
    fallback games carry (`none` = the JS object has no such field). -/
structure SGame where
  id : String
  homeTeam : TeamObj
  awayTeam : TeamObj
  gameTime : String
  venue : String
  scrapedDate : String
  note : Option String
  deriving DecidableEq, Repr

/-- Team object constructed from a resolver result and a record string. -/
def mkTeamObj (tr : TeamRef) (record : String) : TeamObj :=
  ⟨tr.fullName, tr.abbreviation,
   "/team-logos/" ++ toLowerStr tr.abbreviation ++ "_logo.svg", record⟩

/-- One table row → game (part_001:186–313); `count` is the number of
    games already collected (`String(tableGames.length + 1)` is the id). -/
def tableRowGame (currentDate : String) (count : ℕ) (cells : List String) :
    Option SGame :=
  if 2 ≤ cells.length then
    let timeText := jsTrim (cells.getD 0 "")
    let teamsText := jsTrim (cells.getD 1 "")
    let gameTime := rowGameTime timeText currentDate
    match rowTeams teamsText with
    | none => none
    | some (a, ar, h, hr) =>
      let awayTeam := parseTeamNameP1 a
      let homeTeam := parseTeamNameP1 h
      some { id := toString (count + 1)
             homeTeam := mkTeamObj homeTeam hr
             awayTeam := mkTeamObj awayTeam ar
             gameTime := gameTime
             venue := homeTeam.fullName ++ " Stadium"
             scrapedDate := currentDate
             note := none }
  else none

/-- Games of one table (rows already exclude the header). -/
def tableGames (currentDate : String) (rows : List (List String)) : List SGame :=
  rows.foldl
    (fun acc row =>
      match tableRowGame currentDate acc.length row with
      | some g => acc ++ [g]
      | none => acc) []

/-- Strategy 1: first table (in document order) whose rows parse to at
    least one game wins. -/
def strategy1 (currentDate : String) : List (List (List String)) → List SGame
  | [] => []
  | t :: ts =>
    let g := if 0 < t.length then tableGames currentDate t else []
    if g.isEmpty then strategy1 currentDate ts else g

/-- A candidate game card: the texts of its team-like, record-like and
    date-like sub-elements (as selected by the class-pattern queries). -/
structure CardEl where
  teamTexts : List String
  recordTexts : List String
  dateTexts : List String
  deriving DecidableEq, Repr

/-- One card → game (part_001:333–380).  `.text()` of a multi-element
    date selection concatenates the element texts. -/
def cardGame (currentDate : String) (count : ℕ) (card : CardEl) : Option SGame :=
  if 2 ≤ card.teamTexts.length then
    let awayName := jsTrim (card.teamTexts.getD 0 "")
    let homeName := jsTrim (card.teamTexts.getD 1 "")
    let awayRecord :=
      if 2 ≤ card.recordTexts.length then jsTrim (card.recordTexts.getD 0 "") else "0-0"
    let homeRecord :=
      if 2 ≤ card.recordTexts.length then jsTrim (card.recordTexts.getD 1 "") else "0-0"
    let gameTime :=
      if 0 < card.dateTexts.length then jsTrim (String.join card.dateTexts)
      else currentDate ++ "T12:00:00"
    let awayTeam := parseTeamNameP1 awayName
    let homeTeam := parseTeamNameP1 homeName
    some { id := toString (count + 1)
           homeTeam := mkTeamObj homeTeam homeRecord
           awayTeam := mkTeamObj awayTeam awayRecord
           gameTime := gameTime
           venue := homeTeam.fullName ++ " Stadium"
           scrapedDate := currentDate
           note := none }
  else none

/-- Strategy 2: scan the candidate cards. -/
def strategy2 (currentDate : String) (cards : List CardEl) : List SGame :=
  cards.foldl
    (fun acc card =>
      match cardGame currentDate acc.length card with
      | some g => acc ++ [g]
      | none => acc) []

/-- `[A-Za-z\s]`. -/
def isAlphaSpace (c : Char) : Bool := c.isAlpha || c.isWhitespace

/-- The `\s+(vs\.?|at)\s+` delimiter of the strategy-3 regex (no `i`
    flag: lowercase only), anchored at the head. -/
def vsDelimAtWord (cs : List Char) : Option (List Char) := do
  let r1 ← expectSpaces1 cs
  match r1 with
  | 'v' :: 's' :: r2 =>
    (match r2 with
     | '.' :: r3 => expectSpaces1 r3
     | _ => expectSpaces1 r2)
  | 'a' :: 't' :: r2 => expectSpaces1 r2
  | _ => none

/-- Backtracking loop of `([A-Za-z\s]+)\s+(vs\.?|at)\s+([A-Za-z\s]+)`:
    the greedy first group places the delimiter at the latest feasible
    split point. -/
def vsAtGo (cs : List Char) : ℕ → Option (String × String)
  | 0 => none
  | k + 1 =>
    match vsDelimAtWord (cs.drop (k + 1)) with
    | some rem =>
      let g3 := rem.takeWhile isAlphaSpace
      if g3.isEmpty then vsAtGo cs k
      else some (String.mk (cs.take (k + 1)), String.mk g3)
    | none => vsAtGo cs k

/-- `([A-Za-z\s]+)\s+(vs\.?|at)\s+([A-Za-z\s]+)` (no `i` flag), anchored
    at the first class character (which is where the leftmost search
    lands for the substrings produced by the page-wide scan). -/
def vsAtInner (cs : List Char) : Option (String × String) :=
  let g1max := cs.takeWhile isAlphaSpace
  if g1max.isEmpty then none else vsAtGo cs g1max.length

/-- One text match → game (part_001:397–431). -/
def textMatchGame (currentDate : String) (count : ℕ) (m : String) : Option SGame :=
  match vsAtInner m.data with
  | none => none
  | some (a, h) =>
    let awayTeam := parseTeamNameP1 (jsTrim a)
    let homeTeam := parseTeamNameP1 (jsTrim h)
    some { id := toString (count + 1)
           homeTeam := mkTeamObj homeTeam "0-0"
           awayTeam := mkTeamObj awayTeam "0-0"
           gameTime := currentDate ++ "T12:00:00"
           venue := homeTeam.fullName ++ " Stadium"
           scrapedDate := currentDate
           note := none }

/-- Strategy 3: the substrings matched by the page-wide
    `([A-Za-z\s]+)\s+(vs\.?|at)\s+([A-Za-z\s]+)/g` scan, re-parsed one by
    one. -/
def strategy3 (currentDate : String) (ms : List String) : List SGame :=
  ms.foldl
    (fun acc m =>
      match textMatchGame currentDate acc.length m with
      | some g => acc ++ [g]
      | none => acc) []

/-- One side of a stats-API game entry (`teams.home` / `teams.away`):
    the team name and the optional `leagueRecord` as wins/losses. -/
structure ApiTeamSide where
  teamName : String
  leagueRecord : Option (ℕ × ℕ)
  deriving DecidableEq, Repr

/-- One game of the stats-API response (`dates[0].games[]`). -/
structure ApiGame where
  homeSide : ApiTeamSide
  awaySide : ApiTeamSide
  gameDate : Option String
  venueName : Option String
  deriving DecidableEq, Repr

/-- The stats-API JSON body: `dates`, each with its `games`. -/
structure ApiResponse where
  dates : List (List ApiGame)
  deriving DecidableEq, Repr

/-- Game built from one API entry (part_001:447–480); `index` is the
    `forEach` index. -/
def apiGameToSGame (currentDate : String) (index : ℕ) (g : ApiGame) : SGame :=
  let homeTeam := parseTeamNameP1 g.homeSide.teamName
  let awayTeam := parseTeamNameP1 g.awaySide.teamName
  let homeRecord :=
    match g.homeSide.leagueRecord with
    | some (w, l) => toString w ++ "-" ++ toString l
    | none => "0-0"
  let awayRecord :=
    match g.awaySide.leagueRecord with
    | some (w, l) => toString w ++ "-" ++ toString l
    | none => "0-0"
  { id := toString (index + 1)
    homeTeam := mkTeamObj homeTeam homeRecord
    awayTeam := mkTeamObj awayTeam awayRecord
    gameTime := (g.gameDate).getD (currentDate ++ "T12:00:00")
    venue := (g.venueName).getD (homeTeam.fullName ++ " Stadium")
    scrapedDate := currentDate
    note := none }

/-- The official stats-API fallback stage (part_001:436–487): an API
    error is caught and leaves `games` empty, as does an empty `dates`
    array; otherwise the games of `dates[0]` are mapped. -/
def apiFallbackGames (resp : Except JsError ApiResponse) (currentDate : String) :
    List SGame :=
  match resp with
  | .error _ => []
  | .ok r =>
    match r.dates with
    | [] => []
    | todayGames :: _ =>
      (todayGames.foldl
        (fun acc g => acc ++ [apiGameToSGame currentDate acc.length g]) [])

/-- The hardcoded dynamic-game sample, parameterized by the marker text
    (part_001:498–575 and 592–669 differ only in the `note` strings). -/
def dynamicGamesWith (currentDate note : String) : List SGame :=
  [{ id := "1"
     homeTeam := ⟨"Arizona Diamondbacks", "ARI", "/team-logos/ari_logo.svg", "27-31"⟩
     awayTeam := ⟨"Washington Nationals", "WSH", "/team-logos/wsh_logo.svg", "28-30"⟩
     gameTime := currentDate ++ "T16:10:00"
     venue := "Chase Field, Phoenix, AZ"
     scrapedDate := currentDate
     note := some note },
   { id := "2"
     homeTeam := ⟨"Seattle Mariners", "SEA", "/team-logos/sea_logo.svg", "31-26"⟩
     awayTeam := ⟨"Minnesota Twins", "MIN", "/team-logos/min_logo.svg", "31-26"⟩
     gameTime := currentDate ++ "T16:10:00"
     venue := "T-Mobile Park, Seattle, WA"
     scrapedDate := currentDate
     note := some note },
   { id := "3"
     homeTeam := ⟨"San Diego Padres", "SD", "/team-logos/sd_logo.svg", "32-24"⟩
     awayTeam := ⟨"Pittsburgh Pirates", "PIT", "/team-logos/pit_logo.svg", "22-37"⟩
     gameTime := currentDate ++ "T17:10:00"
     venue := "Petco Park, San Diego, CA"
     scrapedDate := currentDate
     note := some note },
   { id := "4"
     homeTeam := ⟨"Los Angeles Dodgers", "LAD", "/team-logos/lad_logo.svg", "36-22"⟩
     awayTeam := ⟨"New York Yankees", "NYY", "/team-logos/nyy_logo.svg", "35-22"⟩
     gameTime := currentDate ++ "T19:10:00"
     venue := "Dodger Stadium, Los Angeles, CA"
     scrapedDate := currentDate
     note := some note }]

/-- The static fallback returned when every strategy and the API stage
    yield zero games. -/
def dynamicGamesNoData (currentDate : String) : List SGame :=
  dynamicGamesWith currentDate "Dynamic game - no data available"

/-- The static fallback returned by the outer `catch` when fetching or
    parsing the source page throws. -/
def dynamicGamesScrapingFailed (currentDate : String) : List SGame :=
  dynamicGamesWith currentDate "Dynamic game - scraping failed"

/-- The parsed source page, as handed over by the cheerio layer: per
    table the data rows (header removed by `.slice(1)`) with their cell
    texts; the candidate cards; the substrings found by the page-wide
    `vs|at` scan. -/
structure ScrapeDoc where
  tables : List (List (List String))
  cards : List CardEl
  vsMatches : List String
  deriving DecidableEq, Repr

/-- External behaviour seen by one `scrapeMLBData()` run: the outcome of
    the page fetch, the outcome of the stats-API request, and
    `getCurrentDate()`. -/
structure ScrapeEnv where
  fetchResult : Except JsError ScrapeDoc
  apiResult : Except JsError ApiResponse
  currentDate : String

/-- `scrapeMLBData()` (part_001:140–673).  The outer `catch` — reached
    when the page fetch throws — returns the "scraping failed" dynamic
    games directly; inside the `try`, each stage runs only when all
    previous stages produced zero games, and the "no data" dynamic games
    are the unconditional last resort.  The function is total: it never
    propagates an error to its caller. -/
def scrapeMLBData (env : ScrapeEnv) : List SGame :=
  match env.fetchResult with
  | .error _ => dynamicGamesScrapingFailed env.currentDate
  | .ok doc =>
    let games1 := strategy1 env.currentDate doc.tables
    let games2 := if games1.isEmpty then strategy2 env.currentDate doc.cards else games1
    let games3 := if games2.isEmpty then strategy3 env.currentDate doc.vsMatches else games2
    let games4 :=
      if games3.isEmpty then apiFallbackGames env.apiResult env.currentDate else games3
    if games4.isEmpty then dynamicGamesNoData env.currentDate else games4

/-! ## Concrete inputs used by witnesses and counterexamples -/

/-- A document in which no strategy finds anything: no tables, no
    candidate cards, no `vs|at` text matches. -/
def emptyDoc : ScrapeDoc := ⟨[], [], []⟩

/-- A stats-API response listing one game for the date. -/
def apiRespOneGame : ApiResponse :=
  ⟨[[{ homeSide := ⟨"New York Yankees", some (35, 18)⟩
       awaySide := ⟨"Boston Red Sox", some (30, 23)⟩
       gameDate := some "2025-06-01T19:05:00Z"
       venueName := some "Yankee Stadium" }]]⟩

/-- Page fetch throws, while the stats API would have returned a game. -/
def scrapeEnvFetchError : ScrapeEnv :=
  { fetchResult := .error ⟨none⟩
    apiResult := .ok apiRespOneGame
    currentDate := "2025-06-01" }

/-- Page fetch succeeds but every strategy finds zero games, with the same
    stats-API behaviour as `scrapeEnvFetchError`. -/
def scrapeEnvEmptyPage : ScrapeEnv :=
  { fetchResult := .ok emptyDoc
    apiResult := .ok apiRespOneGame
    currentDate := "2025-06-01" }

/-- Everything empty: no page content and no games from the stats API. -/
def scrapeEnvAllEmpty : ScrapeEnv :=
  { fetchResult := .ok emptyDoc
    apiResult := .ok ⟨[]⟩
    currentDate := "2025-06-01" }

/-- A concrete game for the prediction-service scenarios. -/
def predGame0 : GameP :=
  { homeTeam := ⟨"Arizona Diamondbacks", "27-31"⟩
    awayTeam := ⟨"Washington Nationals", "28-30"⟩
    gameTime := "2025-06-01T04:10:00"
    venue := some "Chase Field, Phoenix, AZ" }

/-- A provider with no credential configured (its HTTP attempts, never
    reached, would all fail without a response). -/
def providerEnvNoKey : ProviderEnv :=
  { hasKey := false
    call := fun _ => .error ⟨none⟩
    rand1 := 0
    rand2 := 0 }

/-- All four credentials absent. -/
def predEnv0 : PredEnv :=
  { openai := providerEnvNoKey
    anthropic := providerEnvNoKey
    grok := providerEnvNoKey
    deepseek := providerEnvNoKey
    now := ⟨2025, 6, 1, 12, 0, 0, 0⟩ }

/-- An operation that fails with HTTP 500 on the first two attempts and
    succeeds on the third. -/
def call500twice : ℕ → Except JsError ℕ
  | 0 => .error ⟨some 500⟩
  | 1 => .error ⟨some 500⟩
  | _ => .ok 7

/-- An operation that fails with HTTP 404 (non-transient) immediately. -/
def call404 : ℕ → Except JsError ℕ :=
  fun _ => .error ⟨some 404⟩

/-- An operation that fails transiently on every attempt
    (429, 500, 503 in turn). -/
def callAlwaysTransient : ℕ → Except JsError ℕ
  | 0 => .error ⟨some 429⟩
  | 1 => .error ⟨some 500⟩
  | _ => .error ⟨some 503⟩

/-- A `Predictions` value whose `error` key is present (the shape the
    unreachable catch branch would build). -/
def predictionsWithError : Predictions :=
  { openai := "x", anthropic := "x", grok := "x", deepseek := "x"
    timestamp := "2025-06-01T12:00:00.000Z", error := some "boom" }

/-! ## Shared lemmas -/

/-- A success of the retry wrapper is the value of one of the performed
    attempts (bounded-fuel formulation). -/
theorem requestWithRetryGo_success_aux {α : Type} (f : ℕ → Except JsError α)
    (v : α) (n : ℕ) :
    ∀ (retries : ℤ) (delay attempt : ℕ), (retries - attempt).toNat ≤ n →
      (requestWithRetryGo f retries delay attempt).1 = .success v →
      ∃ i, f i = .ok v := by
  induction n with
  | zero =>
    intro retries delay attempt hle h
    unfold requestWithRetryGo at h
    have hnlt : ¬ ((attempt : ℤ) < retries) := by omega
    simp [hnlt] at h
  | succ n ih =>
    intro retries delay attempt hle h
    unfold requestWithRetryGo at h
    by_cases hlt : (attempt : ℤ) < retries
    · simp only [hlt, dif_pos] at h
      cases hf : f attempt with
      | ok w =>
        rw [hf] at h
        simp at h
        exact ⟨attempt, by rw [hf, h]⟩
      | error e =>
        rw [hf] at h
        by_cases htr : (attempt : ℤ) < retries - 1 ∧ isTransientStatus e.status
        · simp only [htr, and_self, if_pos, htr.1, htr.2] at h
          exact ih retries (delay * 2) (attempt + 1) (by omega) h
        · simp [htr] at h
    · simp [hlt] at h

/-- A success of `requestWithRetry` is the value of one of the attempts. -/
theorem requestWithRetry_success {α : Type} (f : ℕ → Except JsError α)
    (retries : ℤ) (delay : ℕ) (v : α)
    (h : (requestWithRetry f retries delay).1 = .success v) :
    ∃ i, f i = .ok v :=
  requestWithRetryGo_success_aux f v (retries - 0).toNat retries delay 0 le_rfl h

/-- A string of the form `a ++ "\n\n" ++ b` is never empty. -/
theorem append_sep_ne_empty (a b : String) : a ++ "\n\n" ++ b ≠ "" := by
  intro h
  have hlen := congrArg String.length h
  rw [String.length_append, String.length_append] at hlen
  have h2 : ("\n\n" : String).length = 2 := rfl
  have h0 : ("" : String).length = 0 := rfl
  omega

/-- The fallback predictor always emits a non-empty string (it starts with
    the score line and the blank separator line). -/
theorem getFallbackPrediction_ne_empty (p : String) (g : GameP) (r1 r2 : ℕ) :
    getFallbackPrediction p g r1 r2 ≠ "" :=
  append_sep_ne_empty _ _

/-- Every branch of a provider helper yields a non-empty string, provided
    successful HTTP payloads are non-empty after `trim`. -/
theorem getProviderPrediction_ne_empty (p : String) (env : ProviderEnv)
    (game : GameP) (hc : ∀ i s, env.call i = .ok s → jsTrim s ≠ "") :
    getProviderPrediction p env game ≠ "" := by
  unfold getProviderPrediction
  by_cases hk : env.hasKey
  · simp only [hk, Bool.not_true, Bool.false_eq_true, if_false]
    cases hout : (requestWithRetry env.call 3 1000).1 with
    | success s =>
      obtain ⟨i, hi⟩ := requestWithRetry_success env.call 3 1000 s hout
      exact hc i s hi
    | thrown e => exact getFallbackPrediction_ne_empty p game env.rand1 env.rand2
    | undef => exact getFallbackPrediction_ne_empty p game env.rand1 env.rand2
  · simp only [Bool.not_eq_true] at hk
    simp only [hk, Bool.not_false, if_true]
    exact getFallbackPrediction_ne_empty p game env.rand1 env.rand2

/-! ## Claims -/

/-- Claim C10 (confirmed): `requestWithRetry` called with a zero or
    negative retry count returns `undefined` (and performs no delays)
    without invoking the supplied operation — the result does not depend
    on the operation at all. -/
theorem requestWithRetry_nonpositive_undef {α : Type} (retries : ℤ)
    (hr : retries ≤ 0) (f g : ℕ → Except JsError α) (delay delay' : ℕ) :
    requestWithRetry f retries delay = (.undef, [])
    ∧ requestWithRetry f retries delay = requestWithRetry g retries delay' := by
  have hnlt : ¬ ((0 : ℤ) < retries) := by omega
  constructor
  · unfold requestWithRetry requestWithRetryGo
    simp [hnlt]
  · unfold requestWithRetry requestWithRetryGo
    simp [hnlt]

/-- Witness for C10 at retry count `0`. -/
theorem requestWithRetry_nonpositive_undef_witness :
    requestWithRetry call404 0 1000 = (.undef, [])
    ∧ requestWithRetry call404 0 1000 = requestWithRetry call500twice 0 500 :=
  requestWithRetry_nonpositive_undef 0 (by norm_num) call404 call500twice 1000 500

/-- Claim C2 (confirmed): with the default parameters (3 attempts, base
    delay 1000 ms), transient failures (429 or 5xx) are retried up to two
    more times with doubling delays 1000 then 2000 ms; an operation
    failing with HTTP 500 twice then succeeding returns the success; a
    non-transient failure or retry exhaustion rethrows the error with no
    further delay. -/
theorem requestWithRetry_default_policy {α : Type}
    (f g k : ℕ → Except JsError α) (v : α) (e0 e1 en d0 d1 d2 : JsError)
    (hf0 : f 0 = .error e0) (hf1 : f 1 = .error e1) (hf2 : f 2 = .ok v)
    (ht0 : isTransientStatus e0.status = true)
    (ht1 : isTransientStatus e1.status = true)
    (hg0 : g 0 = .error en)
    (hgn : isTransientStatus en.status = false)
    (hk0 : k 0 = .error d0) (hk1 : k 1 = .error d1) (hk2 : k 2 = .error d2)
    (hd0 : isTransientStatus d0.status = true)
    (hd1 : isTransientStatus d1.status = true)
    (hd2 : isTransientStatus d2.status = true) :
    requestWithRetry f 3 1000 = (.success v, [1000, 2000])
    ∧ requestWithRetry g 3 1000 = (.thrown en, [])
    ∧ requestWithRetry k 3 1000 = (.thrown d2, [1000, 2000]) := by
  refine ⟨?_, ?_, ?_⟩
  · unfold requestWithRetry
    unfold requestWithRetryGo
    simp only [hf0]
    unfold requestWithRetryGo
    simp only [hf1]
    unfold requestWithRetryGo
    simp only [hf2]
    norm_num [ht0, ht1]
  · unfold requestWithRetry
    unfold requestWithRetryGo
    simp only [hg0]
    norm_num [hgn]
  · unfold requestWithRetry
    unfold requestWithRetryGo
    simp only [hk0]
    unfold requestWithRetryGo
    simp only [hk1]
    unfold requestWithRetryGo
    simp only [hk2]
    norm_num [hd0, hd1, hd2]

/-- Witness for C2: HTTP 500 twice then success returns the success after
    delays 1000 and 2000 ms; HTTP 404 rethrows at once; three transient
    failures (429, 500, 503) rethrow the final error after both delays. -/
theorem requestWithRetry_default_policy_witness :
    requestWithRetry call500twice 3 1000 = (.success 7, [1000, 2000])
    ∧ requestWithRetry call404 3 1000 = (.thrown ⟨some 404⟩, [])
    ∧ requestWithRetry callAlwaysTransient 3 1000 = (.thrown ⟨some 503⟩, [1000, 2000]) :=
  requestWithRetry_default_policy call500twice call404 callAlwaysTransient 7
    ⟨some 500⟩ ⟨some 500⟩ ⟨some 404⟩ ⟨some 429⟩ ⟨some 500⟩ ⟨some 503⟩
    rfl rfl rfl (by decide) (by decide) rfl (by decide)
    rfl rfl rfl (by decide) (by decide) (by decide)

/-- Claim C7 counterexample: `resolve("Boston")` and
    `resolve("Boston Red Sox")` do *not* yield identical results — both
    are exact dictionary hits with abbreviation `BOS`, but the resolver
    echoes the raw input as the canonical name, so the two full results
    differ. -/
theorem parseTeamName_identical_counterexample :
    parseTeamName "Boston" = ⟨"Boston", "BOS"⟩
    ∧ parseTeamName "Boston Red Sox" = ⟨"Boston Red Sox", "BOS"⟩
    ∧ parseTeamName "Boston" ≠ parseTeamName "Boston Red Sox" := by
  decide

/-- Claim C7 (corrected): `resolve("Boston")` and
    `resolve("Boston Red Sox")` hit the same dictionary entry value and
    agree on the abbreviation `BOS`, but their canonical names echo the
    respective raw inputs; `resolve("Unknown Team XYZ")` yields the raw
    name with abbreviation `UNK`. -/
theorem parseTeamName_resolutions :
    (parseTeamName "Boston").abbreviation = "BOS"
    ∧ (parseTeamName "Boston Red Sox").abbreviation = "BOS"
    ∧ (parseTeamName "Boston").fullName = "Boston"
    ∧ (parseTeamName "Boston Red Sox").fullName = "Boston Red Sox"
    ∧ parseTeamName "Unknown Team XYZ" = ⟨"Unknown Team XYZ", "UNK"⟩ := by
  decide

/-- Claim C8 counterexample: the resolver maps "Kansas City" to the
    dictionary abbreviation `KC`, which has 2 letters, not 3–4. -/
theorem parseTeamName_abbrev_counterexample :
    (parseTeamName "Kansas City").abbreviation = "KC"
    ∧ ¬ (3 ≤ (parseTeamName "Kansas City").abbreviation.length
          ∧ (parseTeamName "Kansas City").abbreviation.length ≤ 4) := by
  decide

/-- Is every character an uppercase ASCII letter? -/
def isUpperAlphaStr (s : String) : Bool := s.data.all (fun c => c.isUpper)

/-- Claim C8 (corrected): for every input string the resolver's
    abbreviation is either one of the dictionary's fixed abbreviations —
    each of which has 2 to 3 uppercase letters (2 for KC, SD, SF, TB) —
    or the first up-to-3 characters of the raw name uppercased. -/
theorem parseTeamName_abbrev_shape (name : String) :
    ((parseTeamName name).abbreviation ∈ teamAbbreviations.map (fun kv => kv.2)
      ∨ (parseTeamName name).abbreviation = upper3 name)
    ∧ (∀ v ∈ teamAbbreviations.map (fun kv => kv.2),
        2 ≤ v.length ∧ v.length ≤ 3 ∧ isUpperAlphaStr v = true) := by
  constructor
  · unfold parseTeamName
    cases hx : teamAbbreviations.find? (fun kv => kv.1 == name) with
    | some kv =>
      left
      exact List.mem_map_of_mem _ (List.mem_of_find?_eq_some hx)
    | none =>
      cases hs : teamAbbreviations.find? (fun kv => jsIncludes name kv.1) with
      | some kv =>
        left
        exact List.mem_map_of_mem _ (List.mem_of_find?_eq_some hs)
      | none => right; rfl
  · decide

/-- Witness for C8's corrected claim at the input "Kansas City". -/
theorem parseTeamName_abbrev_shape_witness :
    ((parseTeamName "Kansas City").abbreviation
        ∈ teamAbbreviations.map (fun kv => kv.2)
      ∨ (parseTeamName "Kansas City").abbreviation = upper3 "Kansas City")
    ∧ (∀ v ∈ teamAbbreviations.map (fun kv => kv.2),
        2 ≤ v.length ∧ v.length ≤ 3 ∧ isUpperAlphaStr v = true) :=
  parseTeamName_abbrev_shape "Kansas City"

/-- Claim C6 counterexample: a team with record `0-10` has 10 decisions,
    so the claim demands win fraction `0/(0+10) = 0`, but the code's
    `wins / (wins+losses) || 0.5` treats the 0 fraction as falsy and
    yields the 0.5 default. -/
theorem fallbackWinPct_counterexample :
    0 < 0 + 10
    ∧ fallbackWinPct 0 10 = 1/2
    ∧ (0 : ℚ) / ((0 : ℚ) + (10 : ℚ)) = 0
    ∧ fallbackWinPct 0 10 ≠ (0 : ℚ) / ((0 : ℚ) + (10 : ℚ)) := by
  refine ⟨by norm_num, ?_, by norm_num, ?_⟩
  · norm_num [fallbackWinPct, jsOrQ, jsDivNat]
  · norm_num [fallbackWinPct, jsOrQ, jsDivNat]

/-- Claim C6 (corrected): in the fallback predictor a team's win fraction
    is `wins / (wins + losses)` whenever the team has at least one *win*;
    the 0.5 default applies exactly when `wins = 0` — in particular when
    the team has zero decisions, but also when it has zero wins and a
    positive number of losses, because `||` treats the 0 fraction as
    falsy. -/
theorem fallbackWinPct_spec (wins losses : ℕ) :
    (0 < wins → fallbackWinPct wins losses
        = (wins : ℚ) / ((wins : ℚ) + (losses : ℚ)))
    ∧ (wins = 0 → fallbackWinPct wins losses = 1/2) := by
  constructor
  · intro hw
    have hsum : wins + losses ≠ 0 := by omega
    have hw0 : (wins : ℚ) ≠ 0 := Nat.cast_ne_zero.mpr (by omega)
    have hne : ((wins : ℚ) + (losses : ℚ)) ≠ 0 := by
      have h1 : (0 : ℚ) < (wins : ℚ) := by exact_mod_cast hw
      have h2 : (0 : ℚ) ≤ (losses : ℚ) := Nat.cast_nonneg _
      linarith
    have hq : ((wins : ℚ) / ((wins : ℚ) + (losses : ℚ))) ≠ 0 := div_ne_zero hw0 hne
    simp [fallbackWinPct, jsDivNat, jsOrQ, hsum, Nat.cast_add, hq]
  · intro hw
    subst hw
    rcases Nat.eq_zero_or_pos losses with hl | hl
    · subst hl
      simp [fallbackWinPct, jsDivNat, jsOrQ]
    · have hsum : 0 + losses ≠ 0 := by omega
      simp [fallbackWinPct, jsDivNat, jsOrQ, hsum, hl.ne']

/-- Witness for C6's corrected claim: record `3-2` gives fraction `3/5`;
    record `0-5` gives the 0.5 default. -/
theorem fallbackWinPct_spec_witness :
    fallbackWinPct 3 2 = (3 : ℚ) / ((3 : ℚ) + (2 : ℚ))
    ∧ fallbackWinPct 0 5 = 1/2 :=
  ⟨(fallbackWinPct_spec 3 2).1 (by norm_num), (fallbackWinPct_spec 0 5).2 rfl⟩

/-- Claim C3 (confirmed): for every well-formed Eastern wall-clock input,
    `parseEasternTimeToISO` returns the UTC instant obtained with the
    correct per-date US Eastern offset — 240 minutes (−04:00) on EDT
    dates, 300 minutes (−05:00) on EST dates — and the offset genuinely
    varies with the date: around the March 2025 transition (second Sunday
    = 03/09) and the November 2025 transition (first Sunday = 11/02) the
    dates on either side get different offsets. -/
theorem parseEasternTimeToISO_correct
    (month day year hour minute : ℕ) (isPM : Bool)
    (hy : 2007 ≤ year) (hmo : 1 ≤ month ∧ month ≤ 12)
    (hd : 1 ≤ day ∧ day ≤ 31) (hh : 1 ≤ hour ∧ hour ≤ 12)
    (hmin : minute ≤ 59) :
    parseEasternTimeToISO month day year hour minute isPM
      = easternWallClockToUtcSpec year month day hour minute isPM
    ∧ easternOffsetMinutesSpec 2025 3 8 = 300
    ∧ easternOffsetMinutesSpec 2025 3 10 = 240
    ∧ easternOffsetMinutesSpec 2025 11 1 = 240
    ∧ easternOffsetMinutesSpec 2025 11 2 = 300 := by
  refine ⟨?_, by decide, by decide, by decide, by decide⟩
  unfold parseEasternTimeToISO easternWallClockToUtcSpec easternOffsetMinutesSpec
    tzShortName isEasternDaylightAtNoonUTC
  by_cases hC : ((3 < month ∨ (month = 3 ∧ secondSundayOfMarch year ≤ day))
      ∧ (month < 11 ∨ (month = 11 ∧ day < firstSundayOfNovember year)))
  · simp [hC]
  · simp [hC]

/-- Witness for C3 at 03/10/2025 8:10 PM Eastern (the day after the 2025
    spring transition). -/
theorem parseEasternTimeToISO_correct_witness :
    parseEasternTimeToISO 3 10 2025 8 10 true
      = easternWallClockToUtcSpec 2025 3 10 8 10 true
    ∧ easternOffsetMinutesSpec 2025 3 8 = 300
    ∧ easternOffsetMinutesSpec 2025 3 10 = 240
    ∧ easternOffsetMinutesSpec 2025 11 1 = 240
    ∧ easternOffsetMinutesSpec 2025 11 2 = 300 :=
  parseEasternTimeToISO_correct 3 10 2025 8 10 true (by norm_num)
    (by norm_num) (by norm_num) (by norm_num) (by norm_num)

/-- Claim C4 (confirmed): when the page fetch succeeds but every scraping
    strategy and the official stats-API fallback yield zero games,
    `scrapeMLBData` returns the hardcoded non-empty dynamic-game sample,
    and every game in it carries the synthetic-data marker note. -/
theorem scrapeMLBData_static_fallback (env : ScrapeEnv) (doc : ScrapeDoc)
    (hfetch : env.fetchResult = .ok doc)
    (h1 : strategy1 env.currentDate doc.tables = [])
    (h2 : strategy2 env.currentDate doc.cards = [])
    (h3 : strategy3 env.currentDate doc.vsMatches = [])
    (hapi : apiFallbackGames env.apiResult env.currentDate = []) :
    scrapeMLBData env = dynamicGamesNoData env.currentDate
    ∧ scrapeMLBData env ≠ []
    ∧ ∀ g ∈ scrapeMLBData env,
        g.note = some "Dynamic game - no data available" := by
  have hrun : scrapeMLBData env = dynamicGamesNoData env.currentDate := by
    simp [scrapeMLBData, hfetch, h1, h2, h3, hapi]
  refine ⟨hrun, ?_, ?_⟩
  · rw [hrun]
    simp [dynamicGamesNoData, dynamicGamesWith]
  · rw [hrun]
    intro g hg
    simp only [dynamicGamesNoData, dynamicGamesWith, List.mem_cons,
      List.not_mem_nil, or_false] at hg
    rcases hg with h | h | h | h <;> (subst h; rfl)

/-- Witness for C4: empty page, stats API listing no dates. -/
theorem scrapeMLBData_static_fallback_witness :
    scrapeMLBData scrapeEnvAllEmpty = dynamicGamesNoData "2025-06-01"
    ∧ scrapeMLBData scrapeEnvAllEmpty ≠ []
    ∧ ∀ g ∈ scrapeMLBData scrapeEnvAllEmpty,
        g.note = some "Dynamic game - no data available" :=
  scrapeMLBData_static_fallback scrapeEnvAllEmpty emptyDoc rfl rfl rfl rfl rfl

/-- Claim C5 counterexample: a fetch error is *not* handled identically to
    zero results from the strategies.  With the same stats-API behaviour
    (one game available), zero strategy results route to the stats-API
    games, but a fetch error returns the "scraping failed" static sample
    directly, bypassing the API — so the two runs differ. -/
theorem scrapeMLBData_fetch_error_counterexample :
    scrapeMLBData scrapeEnvFetchError = dynamicGamesScrapingFailed "2025-06-01"
    ∧ scrapeMLBData scrapeEnvEmptyPage
        = apiFallbackGames (Except.ok apiRespOneGame) "2025-06-01"
    ∧ apiFallbackGames (Except.ok apiRespOneGame) "2025-06-01" ≠ []
    ∧ scrapeMLBData scrapeEnvFetchError ≠ scrapeMLBData scrapeEnvEmptyPage := by
  refine ⟨rfl, rfl, ?_, ?_⟩
  · decide
  · decide

/-- Claim C5 (corrected): `scrapeMLBData` never throws — an error while
    fetching or parsing the source page is caught by the outer handler,
    which returns the non-empty "scraping failed" static sample directly
    (it does not consult the official stats API on this path). -/
theorem scrapeMLBData_fetch_error_behaviour (env : ScrapeEnv) (e : JsError)
    (hfetch : env.fetchResult = .error e) :
    scrapeMLBData env = dynamicGamesScrapingFailed env.currentDate
    ∧ scrapeMLBData env ≠ [] := by
  have hrun : scrapeMLBData env = dynamicGamesScrapingFailed env.currentDate := by
    simp [scrapeMLBData, hfetch]
  refine ⟨hrun, ?_⟩
  rw [hrun]
  simp [dynamicGamesScrapingFailed, dynamicGamesWith]

/-- Witness for C5's corrected claim at a concrete failing fetch. -/
theorem scrapeMLBData_fetch_error_behaviour_witness :
    scrapeMLBData scrapeEnvFetchError = dynamicGamesScrapingFailed "2025-06-01"
    ∧ scrapeMLBData scrapeEnvFetchError ≠ [] :=
  scrapeMLBData_fetch_error_behaviour scrapeEnvFetchError ⟨none⟩ rfl

/-- Claim C1 counterexample: the object returned by `getAllPredictions`
    has five keys (the four providers plus `timestamp`), so
    `Object.keys(result).length === 4` is false. -/
theorem getAllPredictions_keys_counterexample :
    (predictionObjectKeys (getAllPredictions predEnv0 predGame0)).length = 5
    ∧ (predictionObjectKeys (getAllPredictions predEnv0 predGame0)).length ≠ 4 := by
  exact ⟨rfl, by decide⟩

/-- Claim C1 (corrected): all four provider keys of the returned object
    are populated with non-empty strings — never partial — for every
    combination of absent credentials and throwing HTTP attempts (any
    failure resolves to the non-empty fallback text); but the object has
    five keys, the four providers plus `timestamp`, not four.  The only
    assumption is that a *successful* HTTP payload is non-empty after
    trimming. -/
theorem getAllPredictions_all_populated (env : PredEnv) (game : GameP)
    (ho : ∀ i s, env.openai.call i = .ok s → jsTrim s ≠ "")
    (ha : ∀ i s, env.anthropic.call i = .ok s → jsTrim s ≠ "")
    (hg : ∀ i s, env.grok.call i = .ok s → jsTrim s ≠ "")
    (hd : ∀ i s, env.deepseek.call i = .ok s → jsTrim s ≠ "") :
    (getAllPredictions env game).openai ≠ ""
    ∧ (getAllPredictions env game).anthropic ≠ ""
    ∧ (getAllPredictions env game).grok ≠ ""
    ∧ (getAllPredictions env game).deepseek ≠ ""
    ∧ (predictionObjectKeys (getAllPredictions env game)).length = 5 :=
  ⟨getProviderPrediction_ne_empty "openai" env.openai game ho,
   getProviderPrediction_ne_empty "anthropic" env.anthropic game ha,
   getProviderPrediction_ne_empty "grok" env.grok game hg,
   getProviderPrediction_ne_empty "deepseek" env.deepseek game hd,
   rfl⟩

/-- Witness for C1's corrected claim with all four credentials absent. -/
theorem getAllPredictions_all_populated_witness :
    (getAllPredictions predEnv0 predGame0).openai ≠ ""
    ∧ (getAllPredictions predEnv0 predGame0).anthropic ≠ ""
    ∧ (getAllPredictions predEnv0 predGame0).grok ≠ ""
    ∧ (getAllPredictions predEnv0 predGame0).deepseek ≠ ""
    ∧ (predictionObjectKeys (getAllPredictions predEnv0 predGame0)).length = 5 :=
  getAllPredictions_all_populated predEnv0 predGame0
    (fun i s h => by simp [predEnv0, providerEnvNoKey] at h)
    (fun i s h => by simp [predEnv0, providerEnvNoKey] at h)
    (fun i s h => by simp [predEnv0, providerEnvNoKey] at h)
    (fun i s h => by simp [predEnv0, providerEnvNoKey] at h)

/-- Claim C9 (confirmed): the object returned by `getAllPredictions`
    carries, besides the four provider keys, a fifth `timestamp` key
    holding the generation time rendered by `toISOString`, so it always
    has strictly more than four keys; an object of the catch branch's
    shape (with the `error` key present) would have six. -/
theorem getAllPredictions_timestamp_keys (env : PredEnv) (game : GameP) :
    (getAllPredictions env game).timestamp = jsToISOString env.now
    ∧ (predictionObjectKeys (getAllPredictions env game)).length = 5
    ∧ 4 < (predictionObjectKeys (getAllPredictions env game)).length
    ∧ ∀ p : Predictions, p.error.isSome = true →
        (predictionObjectKeys p).length = 6 := by
  refine ⟨rfl, rfl, ?_, ?_⟩
  · have h : (predictionObjectKeys (getAllPredictions env game)).length = 5 := rfl
    omega
  · intro p hp
    unfold predictionObjectKeys
    cases herr : p.error with
    | some e => rfl
    | none => rw [herr] at hp; simp at hp

/-- Witness for C9 at a concrete environment, including a six-key object
    of the catch branch's shape. -/
theorem getAllPredictions_timestamp_keys_witness :
    (getAllPredictions predEnv0 predGame0).timestamp = jsToISOString predEnv0.now
    ∧ (predictionObjectKeys (getAllPredictions predEnv0 predGame0)).length = 5
    ∧ 4 < (predictionObjectKeys (getAllPredictions predEnv0 predGame0)).length
    ∧ (predictionObjectKeys predictionsWithError).length = 6 :=
  ⟨(getAllPredictions_timestamp_keys predEnv0 predGame0).1,
   (getAllPredictions_timestamp_keys predEnv0 predGame0).2.1,
   (getAllPredictions_timestamp_keys predEnv0 predGame0).2.2.1,
   (getAllPredictions_timestamp_keys predEnv0 predGame0).2.2.2
     predictionsWithError rfl⟩

end SportsAlmanac
